import Mathlib

/-!
Shallow embedding of `webstore/web.py` (the HTTP handlers of the webstore
repository) together with the parts of the table-gateway collaborator that
the handlers call.  Pure data is modelled directly: rows are association
lists from column names to string values, a database is an association list
from table names to tables, and the multi-valued query-parameter mapping of
werkzeug is an ordered list of key/value pairs.  Handlers return
`Except Fault Response`: a `Fault.resp` is a `WebstoreException` (an
HTTPException carrying a ready response), while `Fault.typeError` is an
unhandled Python `TypeError` that escapes the handler (HTTP 500).
-/

namespace Webstore

/-- A row: an ordered mapping from column name to scalar value
(`dict` in the Python source, values rendered as strings). -/
abbrev Row := List (String × String)

/-- A table: runtime-discovered column list plus its rows. -/
structure Table where
  columns : List String
  rows : List Row
deriving Repr, DecidableEq

/-- A database: named tables. -/
abbrev DB := List (String × Table)

/-- Multi-valued query-parameter mapping (werkzeug `MultiDict`),
in insertion order. -/
abbrev Params := List (String × String)

/-- Sort direction, the `sqlalchemy.sql.expression.asc`/`desc` callables. -/
inductive SortDir where
  | ascending
  | descending
deriving Repr, DecidableEq

/-- The query arguments assembled by `_request_query`:
`{'limit': limit, 'offset': offset, 'order_by': sorts}`. -/
structure QueryArgs where
  limit : Option Int := none
  offset : Option Int := none
  orderBy : List (SortDir × String) := []
deriving Repr, DecidableEq

/-- Response envelope: either a rendered control message
(`render_message`: state, HTTP code, text, optional url) or a rendered
table payload (`render_table`: column list plus rows). -/
inductive Response where
  | message (state : String) (code : Nat) (text : String) (url : Option String)
  | table (columns : List String) (rows : List Row)
deriving Repr, DecidableEq

/-- How a handler can abort: `resp` is a raised `WebstoreException`
(Flask turns it into its prebuilt response), `typeError` is an unhandled
Python `TypeError` escaping as an HTTP 500 fault. -/
inductive Fault where
  | resp (r : Response)
  | typeError (msg : String)
deriving Repr, DecidableEq

/-- Outcome at the HTTP boundary: returned responses and raised
`WebstoreException`s both become responses; a `TypeError` is a crash. -/
inductive Outcome where
  | resp (r : Response)
  | crash (msg : String)
deriving Repr, DecidableEq

/-- Collapse a handler result to its HTTP-boundary outcome. -/
def runHandler : Except Fault Response → Outcome
  | .ok r => .resp r
  | .error (.resp r) => .resp r
  | .error (.typeError m) => .crash m

/-! ### Python `int()` on strings -/

def digitVal (c : Char) : Option Nat :=
  if '0' ≤ c ∧ c ≤ '9' then some (c.toNat - '0'.toNat) else none

def digitsToNat : List Char → Nat → Option Nat
  | [], acc => some acc
  | c :: cs, acc =>
    match digitVal c with
    | some d => digitsToNat cs (acc * 10 + d)
    | none => none

def pyIntCore : List Char → Option Int
  | [] => none
  | '-' :: cs =>
    if cs.isEmpty then none
    else (digitsToNat cs 0).map (fun n => -(n : Int))
  | '+' :: cs =>
    if cs.isEmpty then none
    else (digitsToNat cs 0).map (fun n => (n : Int))
  | cs => (digitsToNat cs 0).map (fun n => (n : Int))

def isSpaceChar (c : Char) : Bool :=
  c == ' ' || c == '\t' || c == '\n' || c == '\r' || c == '\x0b' || c == '\x0c'

/-- Strip leading and trailing whitespace, as `int()` does. -/
def stripChars (cs : List Char) : List Char :=
  ((cs.dropWhile isSpaceChar).reverse.dropWhile isSpaceChar).reverse

/-- Python `int(s)` for a string argument: optional surrounding
whitespace, an optional sign, then at least one decimal digit;
anything else raises `ValueError` (modelled as `none`). -/
def pyInt (s : String) : Option Int :=
  pyIntCore (stripChars s.toList)

/-- Python `str.lower()` restricted to ASCII, as applied to direction
tokens. -/
def lowerChar (c : Char) : Char :=
  if 'A' ≤ c ∧ c ≤ 'Z' then Char.ofNat (c.toNat + 32) else c

def lowerStr (s : String) : String :=
  String.mk (s.toList.map lowerChar)

/-! ### MultiDict operations -/

/-- First value stored under a key (`MultiDict` access order). -/
def firstVal (k : String) (ps : Params) : Option String :=
  (ps.find? (fun p => p.1 == k)).map Prod.snd

/-- `MultiDict.pop` / `poplist` remove every value stored under the key. -/
def removeKey (k : String) (ps : Params) : Params :=
  ps.filter (fun p => !(p.1 == k))

/-- `MultiDict.poplist(k)`: all values under `k` in order, and the
remaining mapping. -/
def poplist (k : String) (ps : Params) : List String × Params :=
  ((ps.filter (fun p => p.1 == k)).map Prod.snd, removeKey k ps)

/-! ### `_request_query` -/

/-- The 400 response raised when `int()` fails on `_limit`/`_offset`:
`'Invalid value: %s' % ve` with the `ValueError` text naming the value. -/
def invalidValueResp (v : String) : Response :=
  .message "error" 400
    ("Invalid value: invalid literal for int() with base 10: " ++ v) none

/-- `int(params.pop(k, None)) if k in params else None`, with the
`ValueError` handler of `_request_query`. -/
def popInt (k : String) (ps : Params) : Except Fault (Option Int × Params) :=
  match firstVal k ps with
  | none => .ok (none, ps)
  | some v =>
    match pyInt v with
    | some n => .ok (some n, removeKey k ps)
    | none => .error (.resp (invalidValueResp v))

/-- `{'asc': asc, 'desc': desc}.get(order.lower(), 'asc')`.  The two hits
are the SQLAlchemy callables; the default is the string literal `'asc'`,
which is not callable. -/
def dirLookup (order : String) : Sum SortDir String :=
  if lowerStr order == "asc" then .inl .ascending
  else if lowerStr order == "desc" then .inl .descending
  else .inr "asc"

/-- Python `s.split(':', 1)` on the character list. -/
def splitCharFirst (sep : Char) : List Char → List Char × List Char
  | [] => ([], [])
  | c :: cs =>
    if c == sep then ([], cs)
    else
      let p := splitCharFirst sep cs
      (c :: p.1, p.2)

def splitColon (s : String) : String × String :=
  let p := splitCharFirst ':' s.toList
  (String.mk p.1, String.mk p.2)

def hasColon (s : String) : Bool :=
  s.toList.contains ':'

/-- The 400 response for a `_sort` value without a `:`. -/
def sortFormatResp : Response :=
  .message "error" 400 "Invalid sorting format, use: order:column" none

/-- The `for sort in params.poplist('_sort')` loop body of
`_request_query`, applied left to right.  A value without `:` raises the
400 `WebstoreException`; a recognized direction is applied to the column;
an unrecognized direction leaves the string `'asc'`, and calling it
raises `TypeError`. -/
def parseSorts : List String → Except Fault (List (SortDir × String))
  | [] => .ok []
  | s :: rest =>
    if hasColon s then
      match dirLookup (splitColon s).1 with
      | .inl d =>
        match parseSorts rest with
        | .ok l => .ok ((d, (splitColon s).2) :: l)
        | .error e => .error e
      | .inr _ => .error (.typeError "str object is not callable")
    else .error (.resp sortFormatResp)

/-- `_request_query(_table, _params)` without the extra `queryargs`
overrides: pops `_limit` and `_offset` (each through `int()`), pops all
`_sort` values, and returns the remaining filter parameters together
with the assembled query arguments. -/
def requestQuery (ps : Params) : Except Fault (Params × QueryArgs) :=
  match popInt "_limit" ps with
  | .error e => .error e
  | .ok (limit, ps1) =>
    match popInt "_offset" ps1 with
    | .error e => .error e
    | .ok (offset, ps2) =>
      let sl := poplist "_sort" ps2
      match parseSorts sl.1 with
      | .error e => .error e
      | .ok sorts => .ok (sl.2, ⟨limit, offset, sorts⟩)

/-! ### Query execution

`_query` builds `_table.table.select(whereclause, limit=.., offset=..,
order_by=..)` and executes it: relational semantics — filter by the
predicate, order by the sort specification (stable, left-to-right
precedence), then apply offset and limit. -/

def rowGet (r : Row) (c : String) : String :=
  ((r.find? (fun p => p.1 == c)).map Prod.snd).getD ""

def cmpVal (d : SortDir) (a b : String) : Ordering :=
  match d with
  | .ascending => compare a b
  | .descending => (compare a b).swap

def cmpRows : List (SortDir × String) → Row → Row → Ordering
  | [], _, _ => .eq
  | (d, c) :: rest, a, b =>
    match cmpVal d (rowGet a c) (rowGet b c) with
    | .eq => cmpRows rest a b
    | o => o

def insertSorted (le : Row → Row → Bool) (x : Row) : List Row → List Row
  | [] => [x]
  | y :: ys => if le x y then x :: y :: ys else y :: insertSorted le x ys

/-- Stable insertion sort by the composite ordering. -/
def sortRows (sorts : List (SortDir × String)) (rs : List Row) : List Row :=
  rs.foldr (insertSorted (fun a b => cmpRows sorts a b != Ordering.gt)) []

/-- Execute a select: filter, order, offset, limit. -/
def runQuery (t : Table) (clause : Row → Bool) (q : QueryArgs) : List Row :=
  let rs := t.rows.filter clause
  let rs := if q.orderBy.isEmpty then rs else sortRows q.orderBy rs
  let rs :=
    match q.offset with
    | none => rs
    | some o => rs.drop o.toNat
  match q.limit with
  | none => rs
  | some l => rs.take l.toNat

/-! ### Table gateway

The gateway class (`db[table]` with `add_row`, `update_row`,
`args_to_clause`, `drop`, `commit` and membership) lives in a repository
module that is not part of the provided sources; only its callers in
`web.py` are.  The definitions below are therefore modelled from the
spec. -/

/-- Modelled from the spec: `addRow(row)` of the table gateway (absent
from the provided sources) appends one row, and skips silently if the
row is empty; the schema is discovered at access time, so new column
names are recorded. -/
def add_row (t : Table) (row : Row) : Table :=
  if row.isEmpty then t
  else
    { columns :=
        t.columns ++ (row.map Prod.fst).filter (fun c => !(t.columns.contains c)),
      rows := t.rows ++ [row] }

/-- Values of `row` written over the matched row: every column of `row`
is set, remaining columns keep their old values. -/
def mergeRow (old new : Row) : Row :=
  (old.map (fun p => (p.1, ((new.find? (fun q => q.1 == p.1)).map Prod.snd).getD p.2)))
    ++ new.filter (fun q => !((old.map Prod.fst).contains q.1))

/-- Does `cand` agree with `row` on every unique column? -/
def rowMatches (unique : List String) (row cand : Row) : Bool :=
  unique.all (fun c => rowGet cand c == rowGet row c)

/-- Update the first row matching on the unique columns, if any. -/
def updateFirst (unique : List String) (row : Row) : List Row → Option (List Row)
  | [] => none
  | x :: xs =>
    if rowMatches unique row x then some (mergeRow x row :: xs)
    else (updateFirst unique row xs).map (fun l => x :: l)

/-- Modelled from the spec: `upsertRow`/`update_row` of the table
gateway (absent from the provided sources) locates an existing row
matching `row` on the unique columns and updates its other columns,
returning whether an update occurred; with no unique columns no
matching is attempted and it reports `false` so that the caller
inserts. -/
def update_row (t : Table) (unique : List String) (row : Row) : Table × Bool :=
  if unique.isEmpty then (t, false)
  else
    match updateFirst unique row t.rows with
    | some rs => ({ t with rows := rs }, true)
    | none => (t, false)

/-- Modelled from the spec: `buildPredicate`/`args_to_clause` of the
table gateway (absent from the provided sources) resolves each filter
key against the known columns, raising `KeyError` with the unknown
column name, and otherwise builds the conjunction of equality
predicates. -/
def args_to_clause (t : Table) (ps : Params) : Except String (Row → Bool) :=
  match ps.find? (fun p => !(t.columns.contains p.1)) with
  | some p => .error p.1
  | none => .ok (fun r => ps.all (fun p => rowGet r p.1 == p.2))

/-- First filter key not present in the schema, if any. -/
def firstUnknown (t : Table) (ps : Params) : Option String :=
  (ps.find? (fun p => !(t.columns.contains p.1))).map Prod.fst

/-! ### Database operations -/

/-- `table in db` / `db[table]` for an existing table. -/
def dbLookup (db : DB) (tname : String) : Option Table :=
  (db.find? (fun p => p.1 == tname)).map Prod.snd

/-- Persist the (possibly new) state of a table under its name. -/
def dbSet (db : DB) (tname : String) (t : Table) : DB :=
  if (db.find? (fun p => p.1 == tname)).isSome then
    db.map (fun p => if p.1 == tname then (tname, t) else p)
  else db ++ [(tname, t)]

/-- Modelled from the spec: `drop()` of the table gateway (absent from
the provided sources) deletes the table structure and all its data. -/
def dbDrop (db : DB) (tname : String) : DB :=
  db.filter (fun p => !(p.1 == tname))

/-! ### Handlers of `web.py` -/

/-- The 404 raised by `_get_table` for a missing table. -/
def noSuchTableResp (tname : String) : Response :=
  .message "error" 404 ("No such table: " ++ tname) none

/-- `url_for('read', database=database, table=table)`. -/
def urlForRead (database tname : String) : String :=
  "/db/" ++ database ++ "/" ++ tname

/-- GET `/db/<database>/<table>`: the `read` handler. -/
def read (db : DB) (tname : String) (ps : Params) : Except Fault Response :=
  match dbLookup db tname with
  | none => .error (.resp (noSuchTableResp tname))
  | some t =>
    match requestQuery ps with
    | .error e => .error e
    | .ok (rem, q) =>
      match args_to_clause t rem with
      | .error k => .ok (.message "error" 400 ("Invalid filter: " ++ k) none)
      | .ok clause => .ok (.table t.columns (runQuery t clause q))

/-- GET `/db/<database>/<table>/row/<row>`: the `row` handler.  The
ordinal comes in as a string; `int()` failure yields the 400
`Invalid row ID` response, ordinal 0 the 400 header-row response,
and otherwise a query with `limit=1`, `offset=row-1` and the empty
(always-true) where clause. -/
def rowEndpoint (db : DB) (tname rowStr : String) (ps : Params) :
    Except Fault Response :=
  match dbLookup db tname with
  | none => .error (.resp (noSuchTableResp tname))
  | some t =>
    match pyInt rowStr with
    | none =>
      .error (.resp (.message "error" 400 ("Invalid row ID: " ++ rowStr) none))
    | some n =>
      if n == 0 then
        .error (.resp
          (.message "error" 400 "Starting at offset 1 to allow header row" none))
      else
        match requestQuery ps with
        | .error e => .error e
        | .ok (_, q) =>
          .ok (.table t.columns
            (runQuery t (fun _ => true)
              { q with limit := some 1, offset := some (n - 1) }))

/-- The body loop of `create_named`: add every non-empty posted row. -/
def createBatch (t : Table) (body : List Row) : Table :=
  body.foldl (fun acc row => if row.isEmpty then acc else add_row acc row) t

/-- POST `/db/<database>/<table>`: the `create_named` handler. -/
def create_named (db : DB) (database tname : String) (body : List Row) :
    DB × Response :=
  match dbLookup db tname with
  | some _ =>
    (db, .message "error" 409 ("Table already exists: " ++ tname)
      (some (urlForRead database tname)))
  | none =>
    (dbSet db tname (createBatch ⟨[], []⟩ body),
     .message "success" 201 ("Successfully created: " ++ tname)
       (some (urlForRead database tname)))

/-- One non-empty row of the `update` loop:
`if not _table.update_row(unique, row): _table.add_row(row)`. -/
def upsertStep (t : Table) (unique : List String) (row : Row) : Table :=
  let ur := update_row t unique row
  if ur.2 then ur.1 else add_row ur.1 row

/-- The body loop of `update`: skip empty rows, upsert the rest. -/
def updBatch (t : Table) (unique : List String) (body : List Row) : Table :=
  body.foldl (fun acc row => if row.isEmpty then acc else upsertStep acc unique row) t

/-- `request.args.getlist('unique')`. -/
def uniqueOf (ps : Params) : List String :=
  (ps.filter (fun p => p.1 == "unique")).map Prod.snd

/-- PUT `/db/<database>/<table>`: the `update` handler. -/
def update (db : DB) (database tname : String) (ps : Params) (body : List Row) :
    Except Fault (DB × Response) :=
  match dbLookup db tname with
  | none => .error (.resp (noSuchTableResp tname))
  | some t =>
    .ok (dbSet db tname (updBatch t (uniqueOf ps) body),
      .message "success" 201 ("Table updated: " ++ tname)
        (some (urlForRead database tname)))

/-- DELETE `/db/<database>/<table>`: the `delete` handler. -/
def delete (db : DB) (tname : String) : Except Fault (DB × Response) :=
  match dbLookup db tname with
  | none => .error (.resp (noSuchTableResp tname))
  | some _ =>
    .ok (dbDrop db tname,
      .message "success" 410 ("Table dropped: " ++ tname) none)

/-- PUT `/db/<database>`: the `sql` handler.  The backend engine is an
external collaborator passed as a function from the raw SQL text to the
column list and rows of its result. -/
def sql (contentType rawBody : String)
    (engine : String → List String × List Row) : Except Fault Response :=
  if contentType == "text/sql" then
    .ok (.table (engine rawBody).1 (engine rawBody).2)
  else
    .error (.resp (.message "error" 400 "Only text/sql content is supported" none))

/-! ## Supporting lemmas -/

lemma firstVal_removeKey_self (k : String) (ps : Params) :
    firstVal k (removeKey k ps) = none := by
  have h : (removeKey k ps).find? (fun p => p.1 == k) = none := by
    rw [List.find?_eq_none]
    intro x hx
    have hx2 := (List.mem_filter.1 hx).2
    simp only [Bool.not_eq_eq_eq_not, Bool.not_true] at hx2
    simp [hx2]
  simp [firstVal, h]

lemma find?_key_filter_ne (k k2 : String) (hk : ¬ k = k2) (ps : Params) :
    List.find? (fun p => p.1 == k) (List.filter (fun p => !(p.1 == k2)) ps)
      = List.find? (fun p => p.1 == k) ps := by
  induction ps with
  | nil => rfl
  | cons p rest ih =>
    by_cases h2 : p.1 = k
    · simp [List.filter_cons, List.find?_cons, h2, hk]
    · by_cases h1 : p.1 = k2
      · have hkk : (k2 == k) = false := by
          rw [beq_eq_false_iff_ne]
          intro hc
          exact hk hc.symm
        simp [List.filter_cons, List.find?_cons, h1, h2, ih, hkk]
      · simp [List.filter_cons, List.find?_cons, h1, h2, ih]

lemma firstVal_removeKey_ne (k k2 : String) (hk : ¬ k = k2) (ps : Params) :
    firstVal k (removeKey k2 ps) = firstVal k ps :=
  congrArg (Option.map Prod.snd) (find?_key_filter_ne k k2 hk ps)

lemma popInt_ok (k : String) (ps ps1 : Params) (l : Option Int)
    (h : popInt k ps = .ok (l, ps1)) :
    l = (firstVal k ps).bind pyInt ∧ firstVal k ps1 = none ∧
      ∀ k2, ¬ k2 = k → firstVal k2 ps1 = firstVal k2 ps := by
  cases hf : firstVal k ps with
  | none =>
    have hpop : popInt k ps = .ok (none, ps) := by simp [popInt, hf]
    rw [hpop] at h
    simp only [Except.ok.injEq, Prod.mk.injEq] at h
    obtain ⟨hl, hp⟩ := h
    subst hl hp
    exact ⟨by simp [hf], hf, fun _ _ => rfl⟩
  | some v =>
    cases hp : pyInt v with
    | none =>
      have hpop : popInt k ps = .error (.resp (invalidValueResp v)) := by
        simp [popInt, hf, hp]
      rw [hpop] at h
      exact absurd h (by simp)
    | some n =>
      have hpop : popInt k ps = .ok (some n, removeKey k ps) := by
        simp [popInt, hf, hp]
      rw [hpop] at h
      simp only [Except.ok.injEq, Prod.mk.injEq] at h
      obtain ⟨hl, hps⟩ := h
      subst hl hps
      refine ⟨by simp [hf, hp], firstVal_removeKey_self k ps,
        fun k2 hk2 => firstVal_removeKey_ne k2 k hk2 ps⟩

/-- Is the direction token recognized (i.e. is the looked-up value one of
the SQLAlchemy callables rather than the fallback string)? -/
def isKnownDir : Sum SortDir String → Bool
  | .inl _ => true
  | .inr _ => false

/-- A `_sort` value the loop passes without raising. -/
def sortValOk (s : String) : Bool :=
  hasColon s && isKnownDir (dirLookup (splitColon s).1)

lemma parseSorts_cons_error (s : String) (rest : List String)
    (h : sortValOk s = true) (e : Fault)
    (he : parseSorts rest = .error e) : parseSorts (s :: rest) = .error e := by
  unfold sortValOk at h
  rw [Bool.and_eq_true] at h
  obtain ⟨h1, h2⟩ := h
  unfold parseSorts
  rw [h1]
  simp only [if_true]
  cases hd : dirLookup (splitColon s).1 with
  | inl d => simp [he]
  | inr s2 => rw [hd] at h2; simp [isKnownDir] at h2

lemma parseSorts_append_error (pre rest : List String)
    (h : ∀ s ∈ pre, sortValOk s = true) (e : Fault)
    (he : parseSorts rest = .error e) : parseSorts (pre ++ rest) = .error e := by
  induction pre with
  | nil => simpa using he
  | cons s pre ih =>
    simp only [List.cons_append]
    exact parseSorts_cons_error s _ (h s (by simp)) e
      (ih (fun x hx => h x (by simp [hx])))

lemma parseSorts_noColon (v : String) (post : List String)
    (h : hasColon v = false) :
    parseSorts (v :: post) = .error (.resp sortFormatResp) := by
  unfold parseSorts
  rw [h]
  simp

lemma insertSorted_length (le : Row → Row → Bool) (x : Row) (l : List Row) :
    (insertSorted le x l).length = l.length + 1 := by
  induction l with
  | nil => rfl
  | cons y ys ih =>
    unfold insertSorted
    by_cases h : le x y
    · simp [h]
    · simp [h, ih]

lemma sortRows_length (sorts : List (SortDir × String)) (rs : List Row) :
    (sortRows sorts rs).length = rs.length := by
  induction rs with
  | nil => rfl
  | cons r rest ih =>
    unfold sortRows at ih ⊢
    simp [List.foldr_cons, insertSorted_length, ih]

lemma updateFirst_of_no_match (U : List String) (r : Row) (rows : List Row)
    (h : ∀ x ∈ rows, rowMatches U r x = false) :
    updateFirst U r rows = none := by
  induction rows with
  | nil => rfl
  | cons x xs ih =>
    unfold updateFirst
    rw [h x (by simp)]
    simp [ih (fun y hy => h y (by simp [hy]))]

lemma updateFirst_of_unique_match (U : List String) (r : Row) (rows : List Row)
    (h : (rows.filter (rowMatches U r)).length = 1) :
    updateFirst U r rows =
      some (rows.map (fun x => if rowMatches U r x then mergeRow x r else x)) := by
  induction rows with
  | nil => simp at h
  | cons x xs ih =>
    by_cases m : rowMatches U r x
    · have hxs : (xs.filter (rowMatches U r)).length = 0 := by
        rw [List.filter_cons, if_pos m] at h
        simpa using h
      have hnone : ∀ y ∈ xs, rowMatches U r y = false := by
        intro y hy
        have := List.filter_eq_nil_iff.1 (List.length_eq_zero.1 hxs) y hy
        simpa using this
      unfold updateFirst
      rw [m]
      simp only [if_true, List.map_cons, if_pos m, Option.some.injEq]
      have : xs.map (fun x => if rowMatches U r x then mergeRow x r else x)
          = xs.map id := by
        apply List.map_congr_left
        intro a ha
        simp [hnone a ha]
      simp [this]
    · have hx : rowMatches U r x = false := by simpa using m
      rw [List.filter_cons, if_neg (by simp [hx])] at h
      unfold updateFirst
      rw [hx]
      simp [ih h, hx]

lemma dbLookup_dbDrop (db : DB) (tname : String) :
    dbLookup (dbDrop db tname) tname = none := by
  have h : (dbDrop db tname).find? (fun p => p.1 == tname) = none := by
    rw [List.find?_eq_none]
    intro x hx
    have hx2 := (List.mem_filter.1 hx).2
    simp only [Bool.not_eq_eq_eq_not, Bool.not_true] at hx2
    simp [hx2]
  simp [dbLookup, h]

lemma updBatch_filter (u : List String) (body : List Row) :
    ∀ t, updBatch t u body = updBatch t u (body.filter (fun r => !r.isEmpty)) := by
  induction body with
  | nil => intro t; rfl
  | cons r rest ih =>
    intro t
    by_cases h : r.isEmpty
    · have h1 : updBatch t u (r :: rest) = updBatch t u rest := by
        show updBatch (if r.isEmpty then t else upsertStep t u r) u rest = _
        rw [if_pos h]
      have h2 : (r :: rest).filter (fun r => !r.isEmpty)
          = rest.filter (fun r => !r.isEmpty) := by
        rw [List.filter_cons, if_neg (by simp [h])]
      rw [h1, h2]
      exact ih t
    · have hb : (!r.isEmpty) = true := by simp [h]
      have h1 : updBatch t u (r :: rest) = updBatch (upsertStep t u r) u rest := by
        show updBatch (if r.isEmpty then t else upsertStep t u r) u rest = _
        rw [if_neg h]
      have h2 : (r :: rest).filter (fun r => !r.isEmpty)
          = r :: rest.filter (fun r => !r.isEmpty) := by
        rw [List.filter_cons, if_pos hb]
      have h3 : updBatch t u (r :: rest.filter (fun r => !r.isEmpty))
          = updBatch (upsertStep t u r) u (rest.filter (fun r => !r.isEmpty)) := by
        show updBatch (if r.isEmpty then t else upsertStep t u r) u _ = _
        rw [if_neg h]
      rw [h1, h2, h3]
      exact ih (upsertStep t u r)

lemma createBatch_filter (body : List Row) :
    ∀ t, createBatch t body = createBatch t (body.filter (fun r => !r.isEmpty)) := by
  induction body with
  | nil => intro t; rfl
  | cons r rest ih =>
    intro t
    by_cases h : r.isEmpty
    · have h1 : createBatch t (r :: rest) = createBatch t rest := by
        show createBatch (if r.isEmpty then t else add_row t r) rest = _
        rw [if_pos h]
      have h2 : (r :: rest).filter (fun r => !r.isEmpty)
          = rest.filter (fun r => !r.isEmpty) := by
        rw [List.filter_cons, if_neg (by simp [h])]
      rw [h1, h2]
      exact ih t
    · have hb : (!r.isEmpty) = true := by simp [h]
      have h1 : createBatch t (r :: rest) = createBatch (add_row t r) rest := by
        show createBatch (if r.isEmpty then t else add_row t r) rest = _
        rw [if_neg h]
      have h2 : (r :: rest).filter (fun r => !r.isEmpty)
          = r :: rest.filter (fun r => !r.isEmpty) := by
        rw [List.filter_cons, if_pos hb]
      have h3 : createBatch t (r :: rest.filter (fun r => !r.isEmpty))
          = createBatch (add_row t r) (rest.filter (fun r => !r.isEmpty)) := by
        show createBatch (if r.isEmpty then t else add_row t r) _ = _
        rw [if_neg h]
      rw [h1, h2, h3]
      exact ih (add_row t r)

/-- A filter mapping mentions an unknown column exactly when
`firstUnknown` reports one. -/
lemma firstUnknown_isSome (t : Table) (ps : Params) :
    (firstUnknown t ps).isSome ↔ ∃ p ∈ ps, t.columns.contains p.1 = false := by
  unfold firstUnknown
  rw [Option.isSome_map']
  rw [List.find?_isSome]
  constructor
  · rintro ⟨x, hx, hpx⟩
    exact ⟨x, hx, by simpa using hpx⟩
  · rintro ⟨x, hx, hpx⟩
    exact ⟨x, hx, by simpa using hpx⟩

/-! ## Claim theorems -/

/-- Claim C2 (corrected behaviour of the code, settled as a code bug):
the direction token of a `_sort` value is looked up case-insensitively,
but an unrecognized token does NOT default to ascending — the dict
lookup falls back to the string literal `'asc'`, which the code then
calls, raising an unhandled `TypeError` (an HTTP 500 crash), contrary
to the documented default-to-ascending leniency. -/
theorem sort_direction_case_insensitive_but_unknown_crashes :
    requestQuery [("_sort", "ASC:name")] =
      .ok ([], ⟨none, none, [(SortDir.ascending, "name")]⟩) ∧
    requestQuery [("_sort", "DeSc:name")] =
      .ok ([], ⟨none, none, [(SortDir.descending, "name")]⟩) ∧
    requestQuery [("_sort", "ascending:name")] =
      .error (.typeError "str object is not callable") ∧
    runHandler (.error (.typeError "str object is not callable")) =
      .crash "str object is not callable" :=
  ⟨rfl, rfl, rfl, rfl⟩

/-- Claim C3, counterexample: a negative `_limit` (and `_offset`) value
parses through `int()` and is accepted by query translation without any
error, so "must parse as a non-negative integer" fails on the code. -/
theorem negative_limit_accepted :
    requestQuery [("_limit", "-1"), ("_offset", "-5")] =
      .ok ([], ⟨some (-1), some (-5), []⟩) ∧ (-1 : Int) < 0 :=
  ⟨rfl, by decide⟩

/-- Claim C3 (amended): query translation pops `_limit` and `_offset`
when present; each must parse as an integer (`int()`, so negative
values are accepted); a value that does not parse as an integer fails
with the 400 `Invalid value` response naming the offending value. -/
theorem limit_offset_must_parse_as_integer :
    (∀ ps v, firstVal "_limit" ps = some v → pyInt v = none →
      requestQuery ps = .error (.resp (invalidValueResp v))) ∧
    (∀ ps v, (∀ w, firstVal "_limit" ps = some w → (pyInt w).isSome) →
      firstVal "_offset" ps = some v → pyInt v = none →
      requestQuery ps = .error (.resp (invalidValueResp v))) ∧
    (∀ ps rem q, requestQuery ps = .ok (rem, q) →
      q.limit = (firstVal "_limit" ps).bind pyInt ∧
      q.offset = (firstVal "_offset" ps).bind pyInt ∧
      firstVal "_limit" rem = none ∧ firstVal "_offset" rem = none) := by
  refine ⟨?_, ?_, ?_⟩
  · intro ps v h1 h2
    have e1 : popInt "_limit" ps = .error (.resp (invalidValueResp v)) := by
      simp [popInt, h1, h2]
    simp [requestQuery, e1]
  · intro ps v hW hO hpy
    cases hf : firstVal "_limit" ps with
    | none =>
      have e1 : popInt "_limit" ps = .ok (none, ps) := by simp [popInt, hf]
      have e2 : popInt "_offset" ps = .error (.resp (invalidValueResp v)) := by
        simp [popInt, hO, hpy]
      simp [requestQuery, e1, e2]
    | some w =>
      obtain ⟨n, hn⟩ := Option.isSome_iff_exists.1 (hW w hf)
      have e1 : popInt "_limit" ps = .ok (some n, removeKey "_limit" ps) := by
        simp [popInt, hf, hn]
      have hO2 : firstVal "_offset" (removeKey "_limit" ps) = some v := by
        rw [firstVal_removeKey_ne "_offset" "_limit" (by decide) ps]
        exact hO
      have e2 : popInt "_offset" (removeKey "_limit" ps)
          = .error (.resp (invalidValueResp v)) := by
        simp [popInt, hO2, hpy]
      simp [requestQuery, e1, e2]
  · intro ps rem q hok
    cases h1 : popInt "_limit" ps with
    | error e => simp [requestQuery, h1] at hok
    | ok p =>
      obtain ⟨l, ps1⟩ := p
      cases h2 : popInt "_offset" ps1 with
      | error e => simp [requestQuery, h1, h2] at hok
      | ok p2 =>
        obtain ⟨o, ps2⟩ := p2
        cases h3 : parseSorts (poplist "_sort" ps2).1 with
        | error e => simp [requestQuery, h1, h2, h3] at hok
        | ok sorts =>
          simp only [requestQuery, h1, h2, h3, Except.ok.injEq, Prod.mk.injEq] at hok
          obtain ⟨hrem, hq⟩ := hok
          obtain ⟨hl1, hnone1, hpres1⟩ := popInt_ok _ _ _ _ h1
          obtain ⟨hl2, hnone2, hpres2⟩ := popInt_ok _ _ _ _ h2
          subst hrem
          subst hq
          refine ⟨hl1, ?_, ?_, ?_⟩
          · rw [hl2, hpres1 "_offset" (by decide)]
          · show firstVal "_limit" (removeKey "_sort" ps2) = none
            rw [firstVal_removeKey_ne "_limit" "_sort" (by decide) ps2]
            rw [hpres2 "_limit" (by decide)]
            exact hnone1
          · show firstVal "_offset" (removeKey "_sort" ps2) = none
            rw [firstVal_removeKey_ne "_offset" "_sort" (by decide) ps2]
            exact hnone2

/-- Claim C3, witness: `_limit=abc` fails translation with the 400
response naming `abc`. -/
theorem limit_offset_must_parse_as_integer_app :
    requestQuery [("_limit", "abc"), ("x", "1")] =
      .error (.resp (invalidValueResp "abc")) :=
  limit_offset_must_parse_as_integer.1 [("_limit", "abc"), ("x", "1")] "abc"
    (by decide) (by decide)

/-- Claim C4: a `_sort` value containing no `:` makes `_request_query`
raise the 400 `Invalid sorting format` response (shown here for the
first offending value, after any well-formed sort values, with valid
`_limit`/`_offset`). -/
theorem sort_value_without_colon_fails
    (ps : Params) (pre : List String) (v : String) (post : List String)
    (hL : firstVal "_limit" ps = none)
    (hO : firstVal "_offset" ps = none)
    (hs : (poplist "_sort" ps).1 = pre ++ v :: post)
    (hpre : ∀ s ∈ pre, sortValOk s = true)
    (hv : hasColon v = false) :
    requestQuery ps = .error (.resp sortFormatResp) := by
  have e1 : popInt "_limit" ps = .ok (none, ps) := by simp [popInt, hL]
  have e2 : popInt "_offset" ps = .ok (none, ps) := by simp [popInt, hO]
  have e3 : parseSorts (poplist "_sort" ps).1 = .error (.resp sortFormatResp) := by
    rw [hs]
    exact parseSorts_append_error pre _ hpre _ (parseSorts_noColon v post hv)
  simp [requestQuery, e1, e2, e3]

/-- Claim C4, witness: `_sort=asc:a&_sort=nope` fails with the 400
sorting-format response. -/
theorem sort_value_without_colon_fails_app :
    requestQuery [("_sort", "asc:a"), ("_sort", "nope")] =
      .error (.resp sortFormatResp) :=
  sort_value_without_colon_fails [("_sort", "asc:a"), ("_sort", "nope")]
    ["asc:a"] "nope" [] (by decide) (by decide) (by decide) (by decide) (by decide)

/-- Claim C6: creating a table that already exists returns the 409
conflict message carrying the URL of the existing table's read
endpoint, and leaves the whole database (hence the existing table's
data) completely unchanged. -/
theorem create_existing_table_conflict
    (db : DB) (database tname : String) (body : List Row) (t : Table)
    (ht : dbLookup db tname = some t) :
    create_named db database tname body =
      (db, .message "error" 409 ("Table already exists: " ++ tname)
        (some (urlForRead database tname))) := by
  simp [create_named, ht]

/-- Claim C6, witness. -/
theorem create_existing_table_conflict_app :
    create_named [("t", ⟨["a"], [[("a", "1")]]⟩)] "d" "t" [[("a", "2")]] =
      ([("t", ⟨["a"], [[("a", "1")]]⟩)],
       .message "error" 409 ("Table already exists: " ++ "t")
         (some (urlForRead "d" "t"))) :=
  create_existing_table_conflict [("t", ⟨["a"], [[("a", "1")]]⟩)] "d" "t"
    [[("a", "2")]] ⟨["a"], [[("a", "1")]]⟩ (by decide)

/-- Claim C9: in both write batches (create and upsert) every empty row
is silently skipped: a batch behaves exactly like the batch with its
empty rows removed, and in particular posting a single empty row
leaves the table unchanged. -/
theorem empty_rows_are_noops (t : Table) (unique : List String) (body : List Row) :
    updBatch t unique body = updBatch t unique (body.filter (fun r => !r.isEmpty)) ∧
    createBatch t body = createBatch t (body.filter (fun r => !r.isEmpty)) ∧
    updBatch t unique [[]] = t ∧
    createBatch t [[]] = t :=
  ⟨updBatch_filter unique body t, createBatch_filter body t, rfl, rfl⟩

/-- Claim C10: PUT on a database executes the raw request body as SQL.
A content type other than `text/sql` fails with 400; with `text/sql`
the body is passed verbatim to the engine and the resulting rows are
rendered as a table payload. -/
theorem sql_endpoint_contract (contentType rawBody : String)
    (engine : String → List String × List Row) :
    (¬ contentType = "text/sql" →
      sql contentType rawBody engine =
        .error (.resp (.message "error" 400
          "Only text/sql content is supported" none))) ∧
    (contentType = "text/sql" →
      sql contentType rawBody engine =
        .ok (.table (engine rawBody).1 (engine rawBody).2)) := by
  constructor
  · intro h
    simp [sql, h]
  · intro h
    simp [sql, h]

/-- Claim C10, witness: a JSON PUT is rejected with 400; a `text/sql`
PUT hands the exact body to the engine. -/
theorem sql_endpoint_contract_app :
    sql "application/json" "SELECT 1" (fun s => (["q"], [[("q", s)]])) =
      .error (.resp (.message "error" 400
        "Only text/sql content is supported" none)) ∧
    sql "text/sql" "SELECT 1" (fun s => (["q"], [[("q", s)]])) =
      .ok (.table ["q"] [[("q", "SELECT 1")]]) :=
  ⟨(sql_endpoint_contract "application/json" "SELECT 1" _).1 (by decide),
   (sql_endpoint_contract "text/sql" "SELECT 1" _).2 rfl⟩

/-- Claim C1: upserting a non-empty row into an existing table: with a
non-empty unique-column set, a row matching exactly one existing row on
the unique columns updates that row's other columns in place (row count
unchanged); a row matching none is inserted (row count +1); with an
empty unique-column set every non-empty row is inserted with no
matching attempted. -/
theorem upsert_row_semantics
    (db : DB) (database tname : String) (ps : Params) (t : Table) (r : Row)
    (ht : dbLookup db tname = some t) (hr : r.isEmpty = false) :
    update db database tname ps [r] =
      .ok (dbSet db tname (upsertStep t (uniqueOf ps) r),
        .message "success" 201 ("Table updated: " ++ tname)
          (some (urlForRead database tname))) ∧
    (¬ uniqueOf ps = [] →
      (t.rows.filter (rowMatches (uniqueOf ps) r)).length = 1 →
        (upsertStep t (uniqueOf ps) r).rows.length = t.rows.length ∧
        (upsertStep t (uniqueOf ps) r).rows =
          t.rows.map (fun x =>
            if rowMatches (uniqueOf ps) r x then mergeRow x r else x)) ∧
    ((t.rows.filter (rowMatches (uniqueOf ps) r)).length = 0 →
      (upsertStep t (uniqueOf ps) r).rows = t.rows ++ [r]) ∧
    (uniqueOf ps = [] →
      (upsertStep t (uniqueOf ps) r).rows = t.rows ++ [r]) := by
  have hne : ¬ r = [] := by
    intro hc
    rw [hc] at hr
    simp at hr
  refine ⟨?_, ?_, ?_, ?_⟩
  · simp [update, ht, updBatch, hr, hne]
  · intro hU h1
    have hUe : (uniqueOf ps).isEmpty = false := by
      cases hu : uniqueOf ps with
      | nil => exact absurd hu hU
      | cons a l => rfl
    have hfirst := updateFirst_of_unique_match (uniqueOf ps) r t.rows h1
    have hstep : upsertStep t (uniqueOf ps) r =
        { t with rows := t.rows.map (fun x =>
            if rowMatches (uniqueOf ps) r x then mergeRow x r else x) } := by
      simp [upsertStep, update_row, hUe, hfirst]
    rw [hstep]
    exact ⟨by simp, rfl⟩
  · intro h0
    have hnone : ∀ x ∈ t.rows, rowMatches (uniqueOf ps) r x = false := by
      intro x hx
      have := List.filter_eq_nil_iff.1 (List.length_eq_zero.1 h0) x hx
      simpa using this
    have hfirst := updateFirst_of_no_match (uniqueOf ps) r t.rows hnone
    by_cases hU : uniqueOf ps = []
    · simp [upsertStep, update_row, hU, add_row, hr]
    · have hUe : (uniqueOf ps).isEmpty = false := by
        cases hu : uniqueOf ps with
        | nil => exact absurd hu hU
        | cons a l => rfl
      simp [upsertStep, update_row, hUe, hfirst, add_row, hr]
  · intro hU
    simp [upsertStep, update_row, hU, add_row, hr]

/-- Claim C1, witness: with unique column `id` and existing row
`{id:1, name:a}`, posting `{id:1, name:b}` keeps the row count at 1,
and posting `{id:2, name:c}` appends the new row. -/
theorem upsert_row_semantics_app :
    (upsertStep ⟨["id", "name"], [[("id", "1"), ("name", "a")]]⟩ ["id"]
        [("id", "1"), ("name", "b")]).rows.length = 1 ∧
    (upsertStep ⟨["id", "name"], [[("id", "1"), ("name", "a")]]⟩ ["id"]
        [("id", "2"), ("name", "c")]).rows =
      [[("id", "1"), ("name", "a")]] ++ [[("id", "2"), ("name", "c")]] :=
  ⟨((upsert_row_semantics [("t", ⟨["id", "name"], [[("id", "1"), ("name", "a")]]⟩)]
      "d" "t" [("unique", "id")] ⟨["id", "name"], [[("id", "1"), ("name", "a")]]⟩
      [("id", "1"), ("name", "b")] (by decide) (by decide)).2.1
        (by decide) (by decide)).1,
   (upsert_row_semantics [("t", ⟨["id", "name"], [[("id", "1"), ("name", "a")]]⟩)]
      "d" "t" [("unique", "id")] ⟨["id", "name"], [[("id", "1"), ("name", "a")]]⟩
      [("id", "2"), ("name", "c")] (by decide) (by decide)).2.2.1 (by decide)⟩

/-- Claim C5: reading a row by ordinal on an existing table: ordinal 0
always yields the 400 header-row response; a non-zero ordinal `n` runs
the query with `limit=1`, `offset=n-1` and an always-true predicate;
and an ordinal beyond the row count yields zero rows as a successful
(non-error) result. -/
theorem row_ordinal_read_semantics
    (db : DB) (tname rowStr : String) (ps : Params) (t : Table)
    (ht : dbLookup db tname = some t) :
    (pyInt rowStr = some 0 →
      rowEndpoint db tname rowStr ps =
        .error (.resp (.message "error" 400
          "Starting at offset 1 to allow header row" none))) ∧
    (∀ n rem q, pyInt rowStr = some n → ¬ n = 0 →
      requestQuery ps = .ok (rem, q) →
      rowEndpoint db tname rowStr ps =
        .ok (.table t.columns (runQuery t (fun _ => true)
          { q with limit := some 1, offset := some (n - 1) })) ∧
      ((t.rows.length : Int) < n →
        runQuery t (fun _ => true)
          { q with limit := some 1, offset := some (n - 1) } = [])) := by
  constructor
  · intro h0
    simp [rowEndpoint, ht, h0]
  · intro n rem q hn hn0 hq
    constructor
    · have hne : (n == 0) = false := by simpa using hn0
      simp [rowEndpoint, ht, hn, hq, hne]
    · intro hlen
      have hle : (if q.orderBy.isEmpty then t.rows
            else sortRows q.orderBy t.rows).length ≤ (n - 1).toNat := by
        have hlen2 : (if q.orderBy.isEmpty then t.rows
              else sortRows q.orderBy t.rows).length = t.rows.length := by
          by_cases hob : q.orderBy.isEmpty
          · simp [hob]
          · simp [hob, sortRows_length]
        rw [hlen2]
        omega
      have hdrop := List.drop_eq_nil_of_le hle
      show List.take (Int.toNat 1) (List.drop (n - 1).toNat
        (if q.orderBy.isEmpty then t.rows.filter (fun _ => true)
         else sortRows q.orderBy (t.rows.filter (fun _ => true)))) = []
      rw [List.filter_true]
      rw [hdrop]
      rfl

/-- Claim C5, witness: on a 2-row table, ordinal 5 returns an empty
table payload and ordinal 0 the 400 header-row response. -/
theorem row_ordinal_read_semantics_app :
    rowEndpoint [("t", ⟨["a"], [[("a", "1")], [("a", "2")]]⟩)] "t" "5" [] =
      .ok (.table ["a"] []) ∧
    rowEndpoint [("t", ⟨["a"], [[("a", "1")], [("a", "2")]]⟩)] "t" "0" [] =
      .error (.resp (.message "error" 400
        "Starting at offset 1 to allow header row" none)) := by
  constructor
  · have h := (row_ordinal_read_semantics
      [("t", ⟨["a"], [[("a", "1")], [("a", "2")]]⟩)] "t" "5" []
      ⟨["a"], [[("a", "1")], [("a", "2")]]⟩ (by decide)).2
      5 [] ⟨none, none, []⟩ (by decide) (by decide) rfl
    rw [h.1, h.2 (by decide)]
  · exact (row_ordinal_read_semantics
      [("t", ⟨["a"], [[("a", "1")], [("a", "2")]]⟩)] "t" "0" []
      ⟨["a"], [[("a", "1")], [("a", "2")]]⟩ (by decide)).1 (by decide)

/-- Claim C7: a read whose remaining filter parameters name a column
absent from the table schema yields the 400 `Invalid filter` response
reporting an unknown column, and never a table (hence never an empty
zero-row success) payload. -/
theorem unknown_filter_column_rejected
    (db : DB) (tname : String) (ps rem : Params) (q : QueryArgs)
    (t : Table) (bad : String)
    (ht : dbLookup db tname = some t)
    (hq : requestQuery ps = .ok (rem, q))
    (hbad : firstUnknown t rem = some bad) :
    read db tname ps =
      .ok (.message "error" 400 ("Invalid filter: " ++ bad) none) ∧
    t.columns.contains bad = false ∧
    ∀ cols rows, ¬ read db tname ps = .ok (.table cols rows) := by
  obtain ⟨p, hp, hp1⟩ := Option.map_eq_some'.1 hbad
  have hclause : args_to_clause t rem = .error bad := by
    have he : args_to_clause t rem = .error p.1 := by
      unfold args_to_clause
      rw [hp]
    rw [he, hp1]
  have hcontains : t.columns.contains bad = false := by
    have hfind := List.find?_some hp
    rw [← hp1]
    simpa using hfind
  have hread : read db tname ps =
      .ok (.message "error" 400 ("Invalid filter: " ++ bad) none) := by
    simp [read, ht, hq, hclause]
  refine ⟨hread, hcontains, ?_⟩
  intro cols rows hc
  rw [hread] at hc
  simp at hc

/-- Claim C7, witness: filtering on unknown column `zz` is a 400, not a
zero-row success. -/
theorem unknown_filter_column_rejected_app :
    read [("t", ⟨["a"], [[("a", "1")]]⟩)] "t" [("zz", "1")] =
      .ok (.message "error" 400 ("Invalid filter: " ++ "zz") none) :=
  (unknown_filter_column_rejected [("t", ⟨["a"], [[("a", "1")]]⟩)] "t"
    [("zz", "1")] [("zz", "1")] ⟨none, none, []⟩ ⟨["a"], [[("a", "1")]]⟩ "zz"
    (by decide) rfl (by decide)).1

/-- Claim C8: after a successful drop of an existing table, every
subsequent read of that table — plain reads and row-by-ordinal reads —
fails with the 404 `No such table` response. -/
theorem drop_table_then_read_404
    (db : DB) (tname : String) (t : Table) (db2 : DB) (resp : Response)
    (ht : dbLookup db tname = some t)
    (hdel : delete db tname = .ok (db2, resp)) :
    (∀ ps, read db2 tname ps = .error (.resp (noSuchTableResp tname))) ∧
    (∀ rowStr ps, rowEndpoint db2 tname rowStr ps =
      .error (.resp (noSuchTableResp tname))) := by
  have hdel2 : delete db tname = .ok (dbDrop db tname,
      .message "success" 410 ("Table dropped: " ++ tname) none) := by
    simp [delete, ht]
  rw [hdel2] at hdel
  simp only [Except.ok.injEq, Prod.mk.injEq] at hdel
  obtain ⟨hdb2, hresp⟩ := hdel
  subst hdb2
  have hnone := dbLookup_dbDrop db tname
  exact ⟨fun ps => by simp [read, hnone],
    fun rowStr ps => by simp [rowEndpoint, hnone]⟩

/-- Claim C8, witness: dropping the only table and reading it again is
a 404. -/
theorem drop_table_then_read_404_app :
    read [] "t" [] = .error (.resp (noSuchTableResp "t")) :=
  (drop_table_then_read_404 [("t", ⟨["a"], [[("a", "1")]]⟩)] "t"
    ⟨["a"], [[("a", "1")]]⟩ []
    (.message "success" 410 ("Table dropped: " ++ "t") none)
    (by decide) rfl).1 []

end Webstore
